import Mathlib

/-!
Verification of the OAuth orchestration core of the `social-logins` service
(`src/app/services/oauth.py` and the logout route in `src/app/routes/auth.py`).

The embedding models the per-browser session as a record of the three keys the
code uses (`oauth_state`, `redirect_path`, `user`), Python string/dict
truthiness explicitly, and the network as an explicit environment describing
the outcomes of the token exchange and the user-info fetch.  Each service
method becomes a pure function returning the final session together with
either the produced value or the `HTTPException` it raised (session mutations
performed before a raise persist, as they do in the real service).
-/

/-- JSON-object payloads (provider profile documents, token responses) as
key/value association lists. -/
abbrev JsonObj : Type := List (String × String)

/-- `fastapi.HTTPException`: a status code plus a detail string. -/
structure HTTPException where
  status_code : Nat
  detail : String
deriving DecidableEq

/-- The mutable per-browser session, restricted to the keys the service ever
touches: `oauth_state`, `redirect_path` and `user`.  `none` means the key is
absent from the underlying dict. -/
structure Session where
  oauth_state : Option String
  redirect_path : Option String
  user : Option JsonObj
deriving DecidableEq

/-- Python truthiness of an optional string: `None` and `""` are falsy. -/
def pyFalsy : Option String → Bool
  | none => true
  | some s => s = ""

/-- Python truthiness of an optional dict: `None` and `{}` are falsy. -/
def pyDictTruthy : Option JsonObj → Bool
  | none => false
  | some d => !d.isEmpty

/-- `OAuthService.clients.get(provider)`: the client registry built by
`_initialize_clients`, keyed by the three provider names; the modelled client
handle is just the provider name (the only part of it the orchestrator
branches on). -/
def clients (provider : String) : Option String :=
  if provider = "google" ∨ provider = "facebook" ∨ provider = "linkedin"
  then some provider else none

/-- Outcome of the user-info HTTP request inside `fetch_user_data`:
a response (with status, parsed JSON body if `.json()` succeeds, raw text),
or a transport-level exception before any response is obtained. -/
inductive UserInfoOutcome where
  | response (status_code : Nat) (jsonBody : Option JsonObj) (text : String)
  | transportError
deriving DecidableEq

/-- The network environment of one callback attempt: the LinkedIn token
endpoint's answer (status/body/parsed JSON), the result of authlib's
`authorize_access_token` for the other providers, and the user-info request
outcome. -/
structure Env where
  linkedinStatus : Nat
  linkedinText : String
  linkedinJson : JsonObj
  authlibResult : Except HTTPException JsonObj
  userinfo : UserInfoOutcome

/-- `OAuthService.get_token`: LinkedIn gets a direct POST to its token
endpoint, raising HTTP 400 with the upstream body attached when the status is
not 200; every other provider goes through authlib's standard
authorization-code exchange. -/
def get_token (provider : String) (env : Env) : Except HTTPException JsonObj :=
  if provider = "linkedin" then
    if env.linkedinStatus ≠ 200 then
      .error ⟨400, "Failed to fetch access token: " ++ env.linkedinText⟩
    else
      .ok env.linkedinJson
  else
    env.authlibResult

/-- `OAuthService.fetch_user_data`: the provider-specific GET is issued inside
a `try` block; a 200 response with a parseable body yields that body, while a
non-200 status, a body on which `.json()` raises, or a transport exception all
yield `None`. -/
def fetch_user_data (env : Env) : Option JsonObj :=
  match env.userinfo with
  | .transportError => none
  | .response status jsonBody _ =>
    if status = 200 then
      match jsonBody with
      | some d => some d
      | none => none
    else
      none

/-- `OAuthService.handle_oauth_callback`, line by line: read the stored and
received states; if the stored state is falsy or differs from the received
one, raise `Invalid state parameter.` (400) with the session untouched;
otherwise pop `oauth_state`, look up the provider client (raising
`Invalid provider` if absent), run the token exchange and the user-info
fetch, raise `Failed to fetch user data.` (400) on a falsy profile, and
finally write `session["user"]`, pop `redirect_path` (default `/success`)
and return it as the redirect destination. -/
def handle_oauth_callback (provider : String) (session : Session)
    (query_state : Option String) (env : Env) :
    Session × Except HTTPException String :=
  let stored_state := session.oauth_state
  let received_state := query_state
  if pyFalsy stored_state ∨ stored_state ≠ received_state then
    (session, .error ⟨400, "Invalid state parameter."⟩)
  else
    let session1 : Session := { session with oauth_state := none }
    match clients provider with
    | none => (session1, .error ⟨400, "Invalid provider"⟩)
    | some _client =>
      match get_token provider env with
      | .error e => (session1, .error e)
      | .ok _token =>
        let user_data := fetch_user_data env
        if !pyDictTruthy user_data then
          (session1, .error ⟨400, "Failed to fetch user data."⟩)
        else
          let session2 : Session := { session1 with user := user_data }
          let redirect_path := session2.redirect_path.getD "/success"
          let session3 : Session := { session2 with redirect_path := none }
          (session3, .ok redirect_path)

/-- The lowercase hexadecimal alphabet used by Python's `bytes.hex()`. -/
def hexChars : List Char := "0123456789abcdef".data

/-- One hex digit (nibble value to character). -/
def hexDigit (n : Nat) : Char := hexChars.getD n '0'

/-- One byte as two hex characters, high nibble first, as `bytes.hex()`
renders it. -/
def byteHexChars (b : Nat) : List Char := [hexDigit (b / 16), hexDigit (b % 16)]

/-- A byte string rendered as its hex characters. -/
def bytesToHexChars (bs : List Nat) : List Char := bs.flatMap byteHexChars

/-- `bytes.hex()`: the lowercase hex encoding of a byte string. -/
def bytesToHex (bs : List Nat) : String := ⟨bytesToHexChars bs⟩

/-- `OAuthService.initiate_social_login`: look up the provider client, raising
`Unsupported provider` (400) before any session write when it is unknown;
store a truthy `redirect_path` argument under `session["redirect_path"]`;
generate the state as the hex encoding of fresh entropy (`os.urandom(16)`,
passed here as the explicit byte string `entropy`) and store it as
`session["oauth_state"]`; return the state used in the authorization
redirect. -/
def initiate_social_login (provider : String) (session : Session)
    (redirect_path : Option String) (entropy : List Nat) :
    Session × Except HTTPException String :=
  match clients provider with
  | none => (session, .error ⟨400, "Unsupported provider: " ++ provider⟩)
  | some _client =>
    let session1 : Session :=
      if !pyFalsy redirect_path then { session with redirect_path := redirect_path }
      else session
    let state := bytesToHex entropy
    let session2 : Session := { session1 with oauth_state := some state }
    (session2, .ok state)

/-- The `logout` route: `request.session.clear()` removes every key
unconditionally. -/
def logout (_session : Session) : Session :=
  { oauth_state := none, redirect_path := none, user := none }

/-- The empty session (no key set). -/
def emptySession : Session :=
  { oauth_state := none, redirect_path := none, user := none }

/-- An environment in which both the token exchange and the user-info fetch
succeed, the latter with the profile `{id: 12345, email: test@example.com}`. -/
def envOk : Env :=
  { linkedinStatus := 200
    linkedinText := ""
    linkedinJson := [("access_token", "T")]
    authlibResult := .ok [("access_token", "T")]
    userinfo := .response 200 (some [("id", "12345"), ("email", "test@example.com")]) "" }

/-- An environment in which the token exchange succeeds and the user-info
fetch returns 200 with a non-empty profile that has no `id` field. -/
def envNoId : Env :=
  { linkedinStatus := 200
    linkedinText := ""
    linkedinJson := [("access_token", "T")]
    authlibResult := .ok [("access_token", "T")]
    userinfo := .response 200 (some [("email", "test@example.com")]) "" }

/-- An environment in which the token exchange succeeds and the user-info
endpoint answers with a non-success status. -/
def envNoProfile : Env :=
  { linkedinStatus := 200
    linkedinText := ""
    linkedinJson := [("access_token", "T")]
    authlibResult := .ok [("access_token", "T")]
    userinfo := .response 500 none "server error" }

/-- An environment in which the LinkedIn token endpoint rejects the exchange
with status 500 and the body `upstream-body`. -/
def envTokenFail : Env :=
  { linkedinStatus := 500
    linkedinText := "upstream-body"
    linkedinJson := []
    authlibResult := .ok []
    userinfo := .transportError }

/-- A concrete 16-byte entropy draw (all zero bytes). -/
def entropyA : List Nat := [0, 0, 0, 0, 0, 0, 0, 0, 0, 0, 0, 0, 0, 0, 0, 0]

/-- A second concrete 16-byte entropy draw, differing from `entropyA` in its
last byte. -/
def entropyB : List Nat := [0, 0, 0, 0, 0, 0, 0, 0, 0, 0, 0, 0, 0, 0, 0, 1]

/-! ## Helper lemmas about the hex encoding -/

theorem hexDigit_inj : ∀ a < 16, ∀ b < 16, hexDigit a = hexDigit b → a = b := by decide

set_option maxRecDepth 4000 in
theorem byteHexChars_mem_hexChars : ∀ b < 256, ∀ c ∈ byteHexChars b, c ∈ hexChars := by decide

theorem bytesToHexChars_length (bs : List Nat) :
    (bytesToHexChars bs).length = 2 * bs.length := by
  induction bs with
  | nil => rfl
  | cons a t ih =>
    simp only [bytesToHexChars, List.flatMap_cons, List.length_append, byteHexChars,
      List.length_cons, List.length_nil] at ih ⊢
    omega

theorem bytesToHex_length (bs : List Nat) : (bytesToHex bs).length = 2 * bs.length :=
  bytesToHexChars_length bs

theorem bytesToHexChars_inj (l1 : List Nat) :
    ∀ l2 : List Nat, (∀ b ∈ l1, b < 256) → (∀ b ∈ l2, b < 256) →
      bytesToHexChars l1 = bytesToHexChars l2 → l1 = l2 := by
  induction l1 with
  | nil =>
    intro l2 _ _ h
    cases l2 with
    | nil => rfl
    | cons b t => simp [bytesToHexChars, byteHexChars] at h
  | cons a t ih =>
    intro l2 h1 h2 h
    cases l2 with
    | nil => simp [bytesToHexChars, byteHexChars] at h
    | cons b t2 =>
      simp only [bytesToHexChars, List.flatMap_cons, byteHexChars, List.cons_append,
        List.nil_append, List.cons.injEq] at h
      obtain ⟨hhi, hlo, hrest⟩ := h
      have ha : a < 256 := h1 a (List.mem_cons_self a t)
      have hb : b < 256 := h2 b (List.mem_cons_self b t2)
      have hdiv : a / 16 = b / 16 :=
        hexDigit_inj (a / 16) (Nat.div_lt_of_lt_mul ha) (b / 16)
          (Nat.div_lt_of_lt_mul hb) hhi
      have hmod : a % 16 = b % 16 :=
        hexDigit_inj (a % 16) (Nat.mod_lt a (by omega)) (b % 16)
          (Nat.mod_lt b (by omega)) hlo
      have hab : a = b := by omega
      have ht : t = t2 :=
        ih t2 (fun x hx => h1 x (List.mem_cons_of_mem a hx))
          (fun x hx => h2 x (List.mem_cons_of_mem b hx)) hrest
      rw [hab, ht]

theorem bytesToHex_inj (l1 l2 : List Nat) (h1 : ∀ b ∈ l1, b < 256)
    (h2 : ∀ b ∈ l2, b < 256) (h : bytesToHex l1 = bytesToHex l2) : l1 = l2 := by
  apply bytesToHexChars_inj l1 l2 h1 h2
  have hd := congrArg String.data h
  simpa [bytesToHex] using hd

theorem bytesToHexChars_mem_hexChars : ∀ bs : List Nat, (∀ b ∈ bs, b < 256) →
    ∀ c ∈ bytesToHexChars bs, c ∈ hexChars := by
  intro bs
  induction bs with
  | nil => intro _ c hc; simp [bytesToHexChars] at hc
  | cons a t ih =>
    intro hb c hc
    simp only [bytesToHexChars, List.flatMap_cons, List.mem_append] at hc
    rcases hc with hc | hc
    · exact byteHexChars_mem_hexChars a (hb a (List.mem_cons_self a t)) c hc
    · exact ih (fun x hx => hb x (List.mem_cons_of_mem a hx)) c
        (by simpa [bytesToHexChars] using hc)

theorem bytesToHex_mem_hexChars (bs : List Nat) (hb : ∀ b ∈ bs, b < 256) :
    ∀ c ∈ (bytesToHex bs).data, c ∈ hexChars :=
  bytesToHexChars_mem_hexChars bs hb

/-! ## Helper lemmas about the orchestrator -/

/-- The state check passes exactly when the stored state is a non-empty
string equal to the received one. -/
theorem state_check_passes {s : Session} {st : String} (hst : s.oauth_state = some st)
    (hne : st ≠ "") : ¬(pyFalsy s.oauth_state ∨ s.oauth_state ≠ some st) := by
  rw [hst]
  simp [pyFalsy, hne]

/-- Case analysis of one callback attempt: either the state check failed and
the whole session is returned untouched with the `Invalid state parameter.`
error, or it passed and the result session carries no `oauth_state`,
whatever happens afterwards. -/
theorem handle_oauth_callback_cases (provider : String) (session : Session)
    (query_state : Option String) (env : Env) :
    ((pyFalsy session.oauth_state ∨ session.oauth_state ≠ query_state) ∧
      handle_oauth_callback provider session query_state env
        = (session, .error ⟨400, "Invalid state parameter."⟩)) ∨
    (¬(pyFalsy session.oauth_state ∨ session.oauth_state ≠ query_state) ∧
      (handle_oauth_callback provider session query_state env).1.oauth_state = none) := by
  by_cases h : pyFalsy session.oauth_state ∨ session.oauth_state ≠ query_state
  · refine Or.inl ⟨h, ?_⟩
    simp only [handle_oauth_callback]
    rw [if_pos h]
  · refine Or.inr ⟨h, ?_⟩
    simp only [handle_oauth_callback]
    rw [if_neg h]
    split
    · rfl
    · split
      · rfl
      · split
        · rfl
        · rfl

/-- For a registered provider, `initiate_social_login` stores the hex-encoded
entropy as the new `oauth_state` (on top of the optional `redirect_path`
write) and returns it. -/
theorem initiate_social_login_valid (p c : String) (hp : clients p = some c)
    (s : Session) (rp : Option String) (e : List Nat) :
    initiate_social_login p s rp e
      = ({ (if !pyFalsy rp then { s with redirect_path := rp } else s) with
            oauth_state := some (bytesToHex e) }, .ok (bytesToHex e)) := by
  simp only [initiate_social_login]
  rw [hp]

/-! ## Claims -/

/-- C1, counterexample to the claim as stated: with `oauth_state = "S1"` in
the session and query state `"S2"`, the callback signals
`Invalid state parameter.` but the stored state is STILL PRESENT afterwards —
the code raises before the `session.pop("oauth_state", None)` line, so the
state is not consumed on a failed comparison. -/
theorem C1_state_not_consumed_on_mismatch :
    (handle_oauth_callback "google" ⟨some "S1", none, none⟩ (some "S2") envOk).2
      = .error ⟨400, "Invalid state parameter."⟩ ∧
    (handle_oauth_callback "google" ⟨some "S1", none, none⟩ (some "S2") envOk).1.oauth_state
      = some "S1" := by
  constructor <;> rfl

/-- C1 (amended): `oauth_state` is consumed exactly when the state validation
passes — after any callback whose stored state is non-empty and equal to the
received one, `oauth_state` is absent regardless of how the rest of the
attempt ends; on the `InvalidStateError` path the stored state is left in
place. -/
theorem C1_state_consumed_after_valid_check (provider : String) (session : Session)
    (st : String) (env : Env) (hst : session.oauth_state = some st) (hne : st ≠ "") :
    (handle_oauth_callback provider session (some st) env).1.oauth_state = none := by
  rcases handle_oauth_callback_cases provider session (some st) env with
    ⟨hcond, _⟩ | ⟨_, hstate⟩
  · exact absurd hcond (state_check_passes hst hne)
  · exact hstate

/-- Witness for C1 (amended) at a concrete session and environment. -/
theorem C1_state_consumed_after_valid_check_witness :
    (handle_oauth_callback "google" ⟨some "S", none, none⟩ (some "S") envOk).1.oauth_state
      = none :=
  C1_state_consumed_after_valid_check "google" ⟨some "S", none, none⟩ "S" envOk rfl
    (by decide)

/-- C2: whatever the first callback attempt with query state `st` did — state
check failure (session untouched, condition still failing) or state check
success (state consumed before the token exchange) — a second attempt with
the same query state always signals `Invalid state parameter.`. -/
theorem C2_replayed_callback_rejected (p1 p2 : String) (s : Session) (st : String)
    (env1 env2 : Env) :
    (handle_oauth_callback p2
        (handle_oauth_callback p1 s (some st) env1).1 (some st) env2).2
      = .error ⟨400, "Invalid state parameter."⟩ := by
  rcases handle_oauth_callback_cases p1 s (some st) env1 with
    ⟨hcond, heq⟩ | ⟨_, hstate⟩
  · simp only [heq]
    rcases handle_oauth_callback_cases p2 s (some st) env2 with
      ⟨_, heq2⟩ | ⟨hcond2, _⟩
    · rw [heq2]
    · exact absurd hcond hcond2
  · rcases handle_oauth_callback_cases p2
        ((handle_oauth_callback p1 s (some st) env1).1) (some st) env2 with
      ⟨_, heq2⟩ | ⟨hcond2, _⟩
    · rw [heq2]
    · exact absurd (Or.inl (by rw [hstate]; rfl)) hcond2

/-- C3: an absent stored state and a present-but-mismatched stored state are
rejected identically — same `Invalid state parameter.` HTTP 400 exception,
session returned untouched, in particular `user` unchanged. -/
theorem C3_absent_or_mismatched_state_rejected (p : String) (s : Session)
    (q : Option String) (env : Env)
    (h : s.oauth_state = none ∨ (s.oauth_state ≠ none ∧ s.oauth_state ≠ q)) :
    handle_oauth_callback p s q env = (s, .error ⟨400, "Invalid state parameter."⟩) ∧
    (handle_oauth_callback p s q env).1.user = s.user := by
  have hcond : pyFalsy s.oauth_state ∨ s.oauth_state ≠ q := by
    rcases h with h | ⟨_, h⟩
    · exact Or.inl (by rw [h]; rfl)
    · exact Or.inr h
  rcases handle_oauth_callback_cases p s q env with ⟨_, heq⟩ | ⟨hn, _⟩
  · exact ⟨heq, by rw [heq]⟩
  · exact absurd hcond hn

/-- Witness for C3: absent stored state, `user` absent before and after. -/
theorem C3_absent_or_mismatched_state_rejected_witness :
    handle_oauth_callback "google" ⟨none, none, none⟩ (some "X") envOk
      = (⟨none, none, none⟩, .error ⟨400, "Invalid state parameter."⟩) ∧
    (handle_oauth_callback "google" ⟨none, none, none⟩ (some "X") envOk).1.user
      = (⟨none, none, none⟩ : Session).user :=
  C3_absent_or_mismatched_state_rejected "google" ⟨none, none, none⟩ (some "X") envOk
    (Or.inl rfl)

/-- C4, counterexample to the claim as stated: for the unknown provider
`twitter`, when the callback's state check passes, the session IS mutated on
the unsupported-provider error path — `oauth_state` has been popped before
the provider lookup, so the check is not at the very start of callback
handling. -/
theorem C4_callback_mutates_session_on_unknown_provider :
    handle_oauth_callback "twitter" ⟨some "S", some "/r", none⟩ (some "S") envOk
      = (⟨none, some "/r", none⟩, .error ⟨400, "Invalid provider"⟩) ∧
    (⟨none, some "/r", none⟩ : Session) ≠ ⟨some "S", some "/r", none⟩ := by
  refine ⟨rfl, by decide⟩

/-- C4 (amended): `initiate_social_login` checks the provider at the very
start and signals the unsupported-provider error with the session completely
unchanged; `handle_oauth_callback` checks the provider only after state
validation and consumption, so when the state check passes it signals the
provider error with `oauth_state` already removed and no other key
changed. -/
theorem C4_unsupported_provider_check_order (p : String) (hp : clients p = none)
    (s : Session) (rp : Option String) (entropy : List Nat)
    (st : String) (env : Env) (hst : s.oauth_state = some st) (hne : st ≠ "") :
    initiate_social_login p s rp entropy
      = (s, .error ⟨400, "Unsupported provider: " ++ p⟩) ∧
    handle_oauth_callback p s (some st) env
      = ({ s with oauth_state := none }, .error ⟨400, "Invalid provider"⟩) := by
  constructor
  · simp only [initiate_social_login]
    rw [hp]
  · simp only [handle_oauth_callback]
    rw [if_neg (state_check_passes hst hne), hp]

/-- Witness for C4 (amended) at the unknown provider `twitter`. -/
theorem C4_unsupported_provider_check_order_witness :
    initiate_social_login "twitter" ⟨some "S", some "/r", none⟩ (some "/p") entropyA
      = (⟨some "S", some "/r", none⟩, .error ⟨400, "Unsupported provider: " ++ "twitter"⟩) ∧
    handle_oauth_callback "twitter" ⟨some "S", some "/r", none⟩ (some "S") envOk
      = ({ (⟨some "S", some "/r", none⟩ : Session) with oauth_state := none },
          .error ⟨400, "Invalid provider"⟩) :=
  C4_unsupported_provider_check_order "twitter" rfl ⟨some "S", some "/r", none⟩
    (some "/p") entropyA "S" envOk rfl (by decide)

/-- C5: for LinkedIn, a non-200 answer from the token endpoint makes the
callback raise HTTP 400 whose detail is the fixed message followed by the
upstream response body, and `user` is not written (only `oauth_state` was
consumed). -/
theorem C5_linkedin_token_exchange_error (s : Session) (st : String) (env : Env)
    (hst : s.oauth_state = some st) (hne : st ≠ "")
    (hstatus : env.linkedinStatus ≠ 200) :
    handle_oauth_callback "linkedin" s (some st) env
      = ({ s with oauth_state := none },
          .error ⟨400, "Failed to fetch access token: " ++ env.linkedinText⟩) ∧
    (handle_oauth_callback "linkedin" s (some st) env).1.user = s.user := by
  have htok : get_token "linkedin" env
      = .error ⟨400, "Failed to fetch access token: " ++ env.linkedinText⟩ := by
    simp only [get_token]
    rw [if_pos hstatus]
    simp
  have hmain : handle_oauth_callback "linkedin" s (some st) env
      = ({ s with oauth_state := none },
          .error ⟨400, "Failed to fetch access token: " ++ env.linkedinText⟩) := by
    simp only [handle_oauth_callback]
    rw [if_neg (state_check_passes hst hne)]
    rw [show clients "linkedin" = some "linkedin" from rfl, htok]
  exact ⟨hmain, by rw [hmain]⟩

/-- Witness for C5: the failing exchange surfaces the body `upstream-body`
and leaves `user` absent. -/
theorem C5_linkedin_token_exchange_error_witness :
    handle_oauth_callback "linkedin" ⟨some "S", none, none⟩ (some "S") envTokenFail
      = ({ (⟨some "S", none, none⟩ : Session) with oauth_state := none },
          .error ⟨400, "Failed to fetch access token: " ++ envTokenFail.linkedinText⟩) ∧
    (handle_oauth_callback "linkedin" ⟨some "S", none, none⟩ (some "S") envTokenFail).1.user
      = (⟨some "S", none, none⟩ : Session).user :=
  C5_linkedin_token_exchange_error ⟨some "S", none, none⟩ "S" envTokenFail rfl
    (by decide) (by decide)

/-- C6, counterexample to the claim as stated: a 200 user-info response whose
body is the non-empty profile `{email: test@example.com}` — with NO `id`
field — is accepted: the callback succeeds, writes that profile to `user`
and returns `/success`, instead of signaling the profile-fetch error. -/
theorem C6_profile_without_id_accepted :
    handle_oauth_callback "google" ⟨some "S", none, none⟩ (some "S") envNoId
      = (⟨none, none, some [("email", "test@example.com")]⟩, .ok "/success") ∧
    ∀ kv ∈ [("email", "test@example.com")], Prod.fst kv ≠ "id" := by
  refine ⟨rfl, by decide⟩

/-- C6 (amended): the callback signals `Failed to fetch user data.` (HTTP
400) exactly when the fetch yields a falsy result — `None` (non-success
status, transport failure or malformed body) or an empty document — and then
`user` is not written; a non-empty profile lacking `id` is not treated as a
failure. -/
theorem C6_falsy_profile_rejected (p c : String) (hp : clients p = some c)
    (s : Session) (st : String) (env : Env) (tok : JsonObj)
    (hst : s.oauth_state = some st) (hne : st ≠ "")
    (htok : get_token p env = .ok tok)
    (hfetch : fetch_user_data env = none ∨ fetch_user_data env = some []) :
    handle_oauth_callback p s (some st) env
      = ({ s with oauth_state := none },
          .error ⟨400, "Failed to fetch user data."⟩) := by
  have hfalsy : pyDictTruthy (fetch_user_data env) = false := by
    rcases hfetch with h | h <;> rw [h] <;> rfl
  simp only [handle_oauth_callback]
  rw [if_neg (state_check_passes hst hne), hp, htok, hfalsy]
  simp

/-- Witness for C6 (amended): a 500 user-info response yields the
profile-fetch error with only `oauth_state` consumed. -/
theorem C6_falsy_profile_rejected_witness :
    handle_oauth_callback "google" ⟨some "S", none, none⟩ (some "S") envNoProfile
      = ({ (⟨some "S", none, none⟩ : Session) with oauth_state := none },
          .error ⟨400, "Failed to fetch user data."⟩) :=
  C6_falsy_profile_rejected "google" "google" rfl ⟨some "S", none, none⟩ "S"
    envNoProfile [("access_token", "T")] rfl (by decide) rfl (Or.inl rfl)

/-- C7: with a matching non-empty state, a registered provider, a successful
token exchange and a fetched non-empty profile `P`, the callback writes
`user := P` (overwriting any previous value), removes `redirect_path`, and
returns the removed `redirect_path` value — or `/success` when none was
stored — as the destination. -/
theorem C7_successful_callback (p c : String) (hp : clients p = some c)
    (s : Session) (st : String) (env : Env) (tok P : JsonObj)
    (hst : s.oauth_state = some st) (hne : st ≠ "")
    (htok : get_token p env = .ok tok)
    (hfetch : fetch_user_data env = some P) (hP : P ≠ []) :
    handle_oauth_callback p s (some st) env
      = ({ oauth_state := none, redirect_path := none, user := some P },
          .ok (s.redirect_path.getD "/success")) := by
  have htruthy : pyDictTruthy (fetch_user_data env) = true := by
    rw [hfetch]
    cases P with
    | nil => exact absurd rfl hP
    | cons a t => rfl
  simp only [handle_oauth_callback]
  rw [if_neg (state_check_passes hst hne), hp, htok, htruthy, hfetch]
  simp

/-- Witness for C7: the spec's test vector — matching state, profile
`{id: 12345, email: test@example.com}`, no stored `redirect_path`, result
destination `/success`, previous `user` overwritten. -/
theorem C7_successful_callback_witness :
    handle_oauth_callback "google" ⟨some "valid_state", none, some [("id", "old")]⟩
        (some "valid_state") envOk
      = ({ oauth_state := none, redirect_path := none,
            user := some [("id", "12345"), ("email", "test@example.com")] },
          .ok ((⟨some "valid_state", none, some [("id", "old")]⟩ : Session).redirect_path.getD
            "/success")) :=
  C7_successful_callback "google" "google" rfl
    ⟨some "valid_state", none, some [("id", "old")]⟩ "valid_state" envOk
    [("access_token", "T")] [("id", "12345"), ("email", "test@example.com")] rfl
    (by decide) rfl rfl (by decide)

/-- C8: for a registered provider, login initiation stores the hex encoding
of the fresh 16-byte entropy draw as `oauth_state` — a 32-character string
over the hex alphabet — overwriting whatever state the session held, and two
successive initiations whose entropy draws differ store two distinct
states (the hex encoding is injective on byte strings). -/
theorem C8_fresh_state_generation (p c : String) (hp : clients p = some c)
    (s : Session) (rp : Option String) (e1 e2 : List Nat)
    (h1len : e1.length = 16) (_h2len : e2.length = 16)
    (h1 : ∀ b ∈ e1, b < 256) (h2 : ∀ b ∈ e2, b < 256) (hne : e1 ≠ e2) :
    (initiate_social_login p s rp e1).1.oauth_state = some (bytesToHex e1) ∧
    (initiate_social_login p s rp e1).2 = .ok (bytesToHex e1) ∧
    (bytesToHex e1).length = 32 ∧
    (∀ ch ∈ (bytesToHex e1).data, ch ∈ hexChars) ∧
    (initiate_social_login p (initiate_social_login p s rp e1).1 rp e2).1.oauth_state
      = some (bytesToHex e2) ∧
    bytesToHex e1 ≠ bytesToHex e2 := by
  refine ⟨?_, ?_, ?_, ?_, ?_, ?_⟩
  · rw [initiate_social_login_valid p c hp s rp e1]
  · rw [initiate_social_login_valid p c hp s rp e1]
  · rw [bytesToHex_length, h1len]
  · exact bytesToHex_mem_hexChars e1 h1
  · rw [initiate_social_login_valid p c hp ((initiate_social_login p s rp e1).1) rp e2]
  · intro h
    exact hne (bytesToHex_inj e1 e2 h1 h2 h)

/-- Witness for C8: two concrete 16-byte draws differing in the last byte
yield distinct stored states on two successive initiations. -/
theorem C8_fresh_state_generation_witness :
    (initiate_social_login "google" ⟨some "old", none, none⟩ none entropyA).1.oauth_state
      = some (bytesToHex entropyA) ∧
    bytesToHex entropyA ≠ bytesToHex entropyB := by
  have h := C8_fresh_state_generation "google" "google" rfl ⟨some "old", none, none⟩
    none entropyA entropyB (by decide) (by decide) (by decide) (by decide) (by decide)
  exact ⟨h.1, h.2.2.2.2.2⟩

/-- C9: `logout` leaves every session empty, is idempotent, and — being a
total function — never fails; this holds for empty, partially and fully
populated sessions alike since the input is unconstrained. -/
theorem C9_logout_clears_session (s : Session) :
    logout s = emptySession ∧ logout (logout s) = emptySession := ⟨rfl, rfl⟩

/-- C10: a stored `oauth_state` equal to the empty string is falsy in Python,
so even a callback whose received state is also the empty string — equal to
the stored one — signals `Invalid state parameter.`, with the session
untouched. -/
theorem C10_empty_stored_state_never_validates (p : String) (rp : Option String)
    (u : Option JsonObj) (env : Env) :
    handle_oauth_callback p ⟨some "", rp, u⟩ (some "") env
      = (⟨some "", rp, u⟩, .error ⟨400, "Invalid state parameter."⟩) := by
  simp only [handle_oauth_callback]
  rw [if_pos (Or.inl (show pyFalsy (some "") = true from rfl))]
